import Mathlib

/-!
Verification of the swish shell's job-control subsystem.

The C sources `string_vector.c`, `swish_funcs.c` and `swish.c` are embedded
shallowly: string vectors become `List String`, the job registry becomes
`List Job`, and every OS primitive (fork, waitpid, tcsetpgrp, kill, open,
...) is supplied by an oracle structure so that each C control path is a
pure function of its inputs.  Raw `waitpid` statuses are embedded as `Nat`
with the glibc bit-level predicates `WIFEXITED` / `WIFSIGNALED` /
`WIFSTOPPED`.  Terminal-control and signalling calls are additionally
recorded in an event trace so that ordering properties can be stated.
-/

namespace Swish

/-- Modelled from the spec: `job_list.h` is not among the sources; the spec
gives a job's status as the enum `Background | Stopped`, and `resume_job`
assigns the constants directly, so we use the C enum values 0 and 1. -/
def BACKGROUND : Nat := 0

/-- Modelled from the spec: the `Stopped` member of the status enum. -/
def STOPPED : Nat := 1

/-- A job record: pid (process-group id), display name, and status field.
The status is an `int` in the C sources, so it is a `Nat` here, not a
two-value enum: `swish.c` stores a raw wait status into it in one place. -/
structure Job where
  pid : Nat
  name : String
  status : Nat
deriving DecidableEq

/-- Job.setStatus j st is the record j with its status field overwritten. -/
def Job.setStatus (j : Job) (st : Nat) : Job := ⟨j.pid, j.name, st⟩

/-- glibc WIFEXITED: the low 7 bits of the raw wait status are zero. -/
def WIFEXITED (s : Nat) : Bool := s % 128 == 0

/-- glibc WIFSIGNALED: the low 7 bits are in 1..126. -/
def WIFSIGNALED (s : Nat) : Bool := 1 ≤ s % 128 && s % 128 ≤ 126

/-- glibc WIFSTOPPED: the low 8 bits equal 0x7f. -/
def WIFSTOPPED (s : Nat) : Bool := s % 256 == 127

/-- Embedding of `strvec_get` (string_vector.c): bound check, then the
stored element.  The C `i` is unsigned and `length` is nonnegative. -/
def strvec_get (vec : List String) (i : Nat) : Option String :=
  if i ≥ vec.length then none else vec.get? i

/-- Loop of `strvec_find`: scan the remaining tokens, carrying the index of
the current element; return the index of the first match, or -1. -/
def strvec_findAux (s : String) : List String → Nat → Int
  | [], _ => -1
  | t :: rest, i => if t = s then (i : Int) else strvec_findAux s rest (i + 1)

/-- Embedding of `strvec_find` (string_vector.c): index of the first token
equal to `s`, or -1 when there is none. -/
def strvec_find (tokens : List String) (s : String) : Int :=
  strvec_findAux s tokens 0

/-- Modelled from the spec: `job_list.c` is not among the sources; the
registry supports index-based lookup, with out-of-range (including
negative, which the C unsigned conversion sends far out of range) giving
no record. -/
def job_list_get (jobs : List Job) (i : Int) : Option Job :=
  if i < 0 then none else jobs.get? i.toNat

/-- Modelled from the spec: append a record to the registry (insertion
order is display order). -/
def job_list_add (jobs : List Job) (pid : Nat) (name : String) (status : Nat) :
    List Job :=
  jobs ++ [⟨pid, name, status⟩]

/-- Modelled from the spec: index-based removal; later records shift down. -/
def job_list_remove (jobs : List Job) (i : Int) : List Job :=
  if i < 0 then jobs else jobs.eraseIdx i.toNat

/-- Modelled from the spec: bulk removal of every record with the given
status. -/
def job_list_remove_by_status (jobs : List Job) (status : Nat) : List Job :=
  jobs.filter (fun j => j.status != status)

/-- Modelled from the spec: overwrite the status field of the record at
the given index (the C code mutates the record through the pointer
returned by lookup). -/
def job_list_set_status (jobs : List Job) (i : Int) (st : Nat) : List Job :=
  if i < 0 then jobs
  else match jobs.get? i.toNat with
    | none => jobs
    | some j => jobs.set i.toNat (j.setStatus st)

/-- Embedding of `sscanf(s, "%d", &n)` as used on a job-index token: skip
leading whitespace, read an optional sign and a nonempty digit run. -/
def scanInt (s : String) : Option Int :=
  let cs := s.toList.dropWhile Char.isWhitespace
  let signed : Bool × List Char :=
    match cs with
    | '-' :: rest => (true, rest)
    | '+' :: rest => (false, rest)
    | _ => (false, cs)
  let ds := signed.2.takeWhile Char.isDigit
  if ds.isEmpty then none
  else
    let v : Nat := ds.foldl (fun acc c => acc * 10 + (c.toNat - 48)) 0
    some (if signed.1 then -(v : Int) else (v : Int))

/-- Error outcomes, one per distinct diagnostic / early-return path in the
C sources (spec taxonomy: InvalidIndex, WrongJobType, SystemCallFailure,
IOError). -/
inductive SwishErr where
  | usageErr
  | invalidNumber
  | invalidIndex
  | wrongJobType
  | tcsetFailed
  | killFailed
  | waitFailed
  | noCommand
  | noInputFile
  | openInputFailed
  | noOutputFile
  | openOutputFailed
  | dup2Failed
  | sigactionFailed
  | setpgidFailed
deriving DecidableEq

/-- Observable terminal / signal / wait actions, recorded in program order
as the embedded code performs them. -/
inductive Event where
  | tcset (pgid : Nat)
  | sigcont (pgid : Nat)
  | waited (pid : Nat)
deriving DecidableEq

/-- Results of the OS primitives invoked by the parent shell: `none` /
`false` is the failing return.  `waitO` gives the raw wait status that
`waitpid(pid, &status, WUNTRACED)` reports for a pid. -/
structure Oracle where
  shellPid : Nat
  forkResult : Option Nat
  setpgidOk : Bool
  tcsetOk : Nat → Bool
  killOk : Bool
  waitO : Nat → Option Nat
  pwdOk : Bool

/-- Embedding of `resume_job` (swish_funcs.c): resolve the index argument,
for foreground hand the terminal to the job, send SIGCONT to the process
group, then for foreground wait and either remove (terminated) or mark
STOPPED (stopped) and hand the terminal back; for background just relabel
the record BACKGROUND.  Returns the error (if any), the registry after the
call, and the event trace. -/
def resume_job (o : Oracle) (tokens : List String) (jobs : List Job)
    (is_foreground : Bool) : Option SwishErr × List Job × List Event :=
  if tokens.length < 2 then (some .usageErr, jobs, [])
  else match scanInt (tokens.getD 1 "") with
    | none => (some .invalidNumber, jobs, [])
    | some job_index =>
      match job_list_get jobs job_index with
      | none => (some .invalidIndex, jobs, [])
      | some job =>
        if is_foreground && !(o.tcsetOk job.pid) then (some .tcsetFailed, jobs, [])
        else
          let ev0 : List Event := if is_foreground then [.tcset job.pid] else []
          if !o.killOk then (some .killFailed, jobs, ev0)
          else
            let ev1 := ev0 ++ [.sigcont job.pid]
            if is_foreground then
              match o.waitO job.pid with
              | none => (some .waitFailed, jobs, ev1 ++ [.waited job.pid])
              | some status =>
                let ev2 := ev1 ++ [.waited job.pid]
                let jobs' :=
                  if WIFEXITED status || WIFSIGNALED status then
                    job_list_remove jobs job_index
                  else if WIFSTOPPED status then
                    job_list_set_status jobs job_index STOPPED
                  else jobs
                if !(o.tcsetOk o.shellPid) then (some .tcsetFailed, jobs', ev2)
                else (none, jobs', ev2 ++ [.tcset o.shellPid])
            else
              (none, job_list_set_status jobs job_index BACKGROUND, ev1)

/-- Embedding of `await_background_job` (swish_funcs.c): resolve the index,
reject non-Background records, wait on the pid, and remove the record only
when the wait reports termination. -/
def await_background_job (o : Oracle) (tokens : List String) (jobs : List Job) :
    Option SwishErr × List Job :=
  if tokens.length < 2 then (some .usageErr, jobs)
  else match scanInt (tokens.getD 1 "") with
    | none => (some .invalidNumber, jobs)
    | some job_index =>
      match job_list_get jobs job_index with
      | none => (some .invalidIndex, jobs)
      | some job =>
        if job.status ≠ BACKGROUND then (some .wrongJobType, jobs)
        else match o.waitO job.pid with
          | none => (some .waitFailed, jobs)
          | some status =>
            if WIFEXITED status || WIFSIGNALED status then
              (none, job_list_remove jobs job_index)
            else (none, jobs)

/-- First pass of `await_all_background_jobs`: walk the registry in order,
wait on each Background record; a stopped report relabels it STOPPED, a
termination leaves it marked BACKGROUND.  A failing wait aborts the walk,
keeping the updates already made (the C list is mutated in place). -/
def awaitAllPass1 (waitO : Nat → Option Nat) : List Job → Bool × List Job
  | [] => (true, [])
  | j :: rest =>
    if j.status == BACKGROUND then
      match waitO j.pid with
      | none => (false, j :: rest)
      | some s =>
        let j' := if WIFSTOPPED s then j.setStatus STOPPED else j
        let r := awaitAllPass1 waitO rest
        (r.1, j' :: r.2)
    else
      let r := awaitAllPass1 waitO rest
      (r.1, j :: r.2)

/-- Embedding of `await_all_background_jobs` (swish_funcs.c): first pass as
above; on success a second pass removes every record still marked
BACKGROUND. -/
def await_all_background_jobs (o : Oracle) (jobs : List Job) :
    Option SwishErr × List Job :=
  let r := awaitAllPass1 o.waitO jobs
  if r.1 then (none, job_list_remove_by_status r.2 BACKGROUND)
  else (some .waitFailed, r.2)

/-- Output-redirection open modes of `run_command`. -/
inductive OpenMode where
  | trunc
  | append
deriving DecidableEq

/-- What the child running `run_command` ends up doing: an early error
return, an exec failure (`_exit(1)`), or an exec of the program with the
built argument vector and the redirection files it opened. -/
inductive RunOutcome where
  | fail (e : SwishErr)
  | execFail
  | exec (argv : List (Option String)) (inputFile : Option String)
      (outputFile : Option (OpenMode × String))
deriving DecidableEq

/-- File-system and child-side primitive results for `run_command`:
`none` / `false` is the failing return of the corresponding C call. -/
structure FileSys where
  openRead : String → Option Nat
  openWriteTrunc : String → Option Nat
  openWriteAppend : String → Option Nat
  dup2Ok : Bool
  sigactionOk : Bool
  setpgidOk : Bool
  execOk : String → Bool

/-- Argument-vector loop of `run_command` (lines 120-131): keep every token
whose index the predicate does not exclude, then the NULL sentinel. -/
def argvLoop (skip : Nat → Bool) : Nat → List String → List (Option String)
  | _, [] => [none]
  | i, t :: rest =>
    if skip i then argvLoop skip (i + 1) rest
    else some t :: argvLoop skip (i + 1) rest

/-- Exclusion test of the argument-vector loop: a position is dropped when
it is a found redirection operator or the position right after one. -/
def excludedIdx (in_index out_index append_index : Int) (i : Nat) : Bool :=
  (in_index != -1 && ((i : Int) == in_index || (i : Int) == in_index + 1)) ||
  (out_index != -1 && ((i : Int) == out_index || (i : Int) == out_index + 1)) ||
  (append_index != -1 && ((i : Int) == append_index || (i : Int) == append_index + 1))

/-- Input-redirection step of `run_command` (lines 69-86): when a `<` was
found, require a following token, open it read-only and duplicate it onto
standard input. -/
def inRedirStep (fs : FileSys) (tokens : List String) (in_index : Int) :
    Except SwishErr (Option String) :=
  if in_index != -1 then
    if in_index + 1 ≥ (tokens.length : Int) then .error .noInputFile
    else
      match fs.openRead (tokens.getD (in_index + 1).toNat "") with
      | none => .error .openInputFailed
      | some _ =>
        if fs.dup2Ok then .ok (some (tokens.getD (in_index + 1).toNat ""))
        else .error .dup2Failed
  else .ok none

/-- Output-redirection step of `run_command` (lines 88-118): when either
output operator was found, the truncate branch is tested first; the chosen
file is opened write-only with the corresponding mode and duplicated onto
standard output. -/
def outRedirStep (fs : FileSys) (tokens : List String)
    (out_index append_index : Int) : Except SwishErr (Option (OpenMode × String)) :=
  if out_index != -1 || append_index != -1 then
    if out_index != -1 then
      if out_index + 1 ≥ (tokens.length : Int) then .error .noOutputFile
      else
        match fs.openWriteTrunc (tokens.getD (out_index + 1).toNat "") with
        | none => .error .openOutputFailed
        | some _ =>
          if fs.dup2Ok then .ok (some (.trunc, tokens.getD (out_index + 1).toNat ""))
          else .error .dup2Failed
    else
      if append_index + 1 ≥ (tokens.length : Int) then .error .noOutputFile
      else
        match fs.openWriteAppend (tokens.getD (append_index + 1).toNat "") with
        | none => .error .openOutputFailed
        | some _ =>
          if fs.dup2Ok then .ok (some (.append, tokens.getD (append_index + 1).toNat ""))
          else .error .dup2Failed
  else .ok none

/-- Final steps of `run_command` (lines 133-161): restore the signal
dispositions, become process-group leader, and exec the program named by
the first argument; a failing exec makes the child `_exit(1)`. -/
def execStep (fs : FileSys) (argv : List (Option String)) (inF : Option String)
    (outF : Option (OpenMode × String)) : RunOutcome :=
  if !fs.sigactionOk then .fail .sigactionFailed
  else if !fs.setpgidOk then .fail .setpgidFailed
  else
    match argv.head? with
    | some (some prog) =>
      if fs.execOk prog then .exec argv inF outF else .execFail
    | _ => .execFail

/-- Embedding of `run_command` (swish_funcs.c): locate the redirection
operators, perform input then output redirection, build the filtered
NULL-terminated argument vector, and finish with signal restoration,
process-group creation, and exec. -/
def run_command (fs : FileSys) (tokens : List String) : RunOutcome :=
  if tokens.length = 0 then .fail .noCommand
  else
    match inRedirStep fs tokens (strvec_find tokens "<") with
    | .error e => .fail e
    | .ok inputFile =>
      match outRedirStep fs tokens (strvec_find tokens ">") (strvec_find tokens ">>") with
      | .error e => .fail e
      | .ok outputFile =>
        execStep fs
          (argvLoop (excludedIdx (strvec_find tokens "<") (strvec_find tokens ">")
            (strvec_find tokens ">>")) 0 tokens)
          inputFile outputFile

/-- Outcome of one iteration of the main loop for the shell process:
either `main` returns with a code, or the loop prints the prompt again. -/
inductive MainOutcome where
  | exit (code : Int)
  | reprompt
deriving DecidableEq

/-- Embedding of the external-command branch of `main` (swish.c lines
161-217), parent side: strip a trailing `&`, fork, and either record a
BACKGROUND job without waiting, or run the foreground protocol: setpgid,
terminal to the child, wait, terminal back to the shell, and on a stopped
report add a job record — the C code passes the raw wait status as the
record's status argument, not the STOPPED constant.  Each failing
primitive makes `main` return. -/
def launchChild (o : Oracle) (tokens : List String) (jobs : List Job) :
    MainOutcome × List Job × List Event :=
  let bg := !tokens.isEmpty && tokens.getLast? == some "&"
  let tks := if bg then tokens.dropLast else tokens
  match o.forkResult with
  | none => (.exit 1, jobs, [])
  | some cpid =>
    if bg then
      (.reprompt, job_list_add jobs cpid (tks.headD "") BACKGROUND, [])
    else
      if !o.setpgidOk then (.exit (-1), jobs, [])
      else if !(o.tcsetOk cpid) then (.exit (-1), jobs, [])
      else
        let ev1 : List Event := [.tcset cpid]
        match o.waitO cpid with
        | none => (.exit (-1), jobs, ev1 ++ [.waited cpid])
        | some status =>
          let ev2 := ev1 ++ [.waited cpid]
          if !(o.tcsetOk o.shellPid) then (.exit (-1), jobs, ev2)
          else
            let ev3 := ev2 ++ [.tcset o.shellPid]
            if WIFSTOPPED status then
              (.reprompt, job_list_add jobs cpid (tks.headD "") status, ev3)
            else (.reprompt, jobs, ev3)

/-- Embedding of the command dispatch of one main-loop iteration (swish.c
lines 61-221): empty line reprompts; `pwd` exits on allocation/getcwd
failure; `cd` always reprompts; `exit` leaves the loop (main returns 0);
`jobs` prints and reprompts; `fg`/`bg`/`wait-for`/`wait-all` run the
coordinator and reprompt whether or not it reports failure; anything else
is launched as an external command. -/
def mainStep (o : Oracle) (tokens : List String) (jobs : List Job) :
    MainOutcome × List Job × List Event :=
  match tokens.head? with
  | none => (.reprompt, jobs, [])
  | some first =>
    if first = "pwd" then
      if o.pwdOk then (.reprompt, jobs, []) else (.exit (-1), jobs, [])
    else if first = "cd" then (.reprompt, jobs, [])
    else if first = "exit" then (.exit 0, jobs, [])
    else if first = "jobs" then (.reprompt, jobs, [])
    else if first = "fg" then
      let r := resume_job o tokens jobs true
      (.reprompt, r.2.1, r.2.2)
    else if first = "bg" then
      let r := resume_job o tokens jobs false
      (.reprompt, r.2.1, r.2.2)
    else if first = "wait-for" then
      let r := await_background_job o tokens jobs
      (.reprompt, r.2, [])
    else if first = "wait-all" then
      let r := await_all_background_jobs o jobs
      (.reprompt, r.2, [])
    else launchChild o tokens jobs

/-- First output-redirection operator by token-list position, and the open
mode the spec associates with it (spec wording for the dual-operator case:
whichever operator appears first in the token list determines the mode). -/
def firstOutRedir : List String → Option OpenMode
  | [] => none
  | t :: rest =>
    if t = ">" then some .trunc
    else if t = ">>" then some .append
    else firstOutRedir rest

/-- First occurrence position of a token, spec side. -/
def firstIdx : List String → String → Option Nat
  | [], _ => none
  | t :: rest, s => if t = s then some 0 else (firstIdx rest s).map (· + 1)

/-- Exclusion described by the spec: for each redirection operator present,
its first occurrence and the position immediately after it are dropped. -/
def specExcluded (tokens : List String) (i : Nat) : Bool :=
  (match firstIdx tokens "<" with
    | some k => i == k || i == k + 1
    | none => false) ||
  (match firstIdx tokens ">" with
    | some k => i == k || i == k + 1
    | none => false) ||
  (match firstIdx tokens ">>" with
    | some k => i == k || i == k + 1
    | none => false)

/-- Spec-side keep loop for the argument vector. -/
def specArgvAux (ex : Nat → Bool) : Nat → List String → List (Option String)
  | _, [] => [none]
  | i, t :: rest =>
    if ex i then specArgvAux ex (i + 1) rest
    else some t :: specArgvAux ex (i + 1) rest

/-- Argument vector described by the spec: every token except the found
redirection operators and their filename arguments, in order, ended by the
NULL sentinel. -/
def specArgv (tokens : List String) : List (Option String) :=
  specArgvAux (specExcluded tokens) 0 tokens

/-- Oracle on which every primitive succeeds and every wait reports a
clean exit (raw status 0). -/
def oracleAllOk : Oracle := ⟨42, some 500, true, fun _ => true, true, fun _ => some 0, true⟩

/-- Oracle on which every primitive succeeds and every wait reports a stop
by SIGTSTP (raw status 0x147f = 5247). -/
def oracleStop : Oracle := ⟨42, some 500, true, fun _ => true, true, fun _ => some 5247, true⟩

/-- Oracle whose fork call fails. -/
def oracleForkFail : Oracle := ⟨42, none, true, fun _ => true, true, fun _ => some 0, true⟩

/-- Oracle whose wait calls fail. -/
def oracleWaitFail : Oracle := ⟨42, some 500, true, fun _ => true, true, fun _ => none, true⟩

/-- Oracle whose wait reports an exit for pid 100, a stop by SIGSTOP (raw
status 0x137f = 4991) for pid 300, and fails elsewhere. -/
def oracleMixed : Oracle :=
  ⟨42, some 500, true, fun _ => true, true,
    fun p => if p == 100 then some 0 else if p == 300 then some 4991 else none, true⟩

/-- Oracle whose setpgid call fails. -/
def oracleSetpgidFail : Oracle :=
  ⟨42, some 500, false, fun _ => true, true, fun _ => some 0, true⟩

/-- Oracle whose tcsetpgrp calls fail for every target group. -/
def oracleTcsetFail : Oracle :=
  ⟨42, some 500, true, fun _ => false, true, fun _ => some 0, true⟩

/-- Oracle whose tcsetpgrp call succeeds only for the child's group (500),
so restoring the shell's own group (42) fails. -/
def oracleRestoreFail : Oracle :=
  ⟨42, some 500, true, fun p => p == 500, true, fun _ => some 0, true⟩

/-- File system on which every open, dup, signal, setpgid, and exec call
succeeds. -/
def fsAllOk : FileSys :=
  ⟨fun _ => some 3, fun _ => some 4, fun _ => some 5, true, true, true, fun _ => true⟩

/-- A raw wait status with low byte 0x7f (a stopped report) is never one
of the registry status constants, and is neither an exit nor a signal
report. -/
theorem wifstopped_facts (s : Nat) (h : WIFSTOPPED s = true) :
    WIFEXITED s = false ∧ WIFSIGNALED s = false ∧ s ≠ STOPPED ∧ s ≠ BACKGROUND := by
  unfold WIFSTOPPED at h
  have h256 : s % 256 = 127 := by simpa using h
  have h128 : s % 128 = 127 := by
    have hd : s % 256 % 128 = s % 128 := Nat.mod_mod_of_dvd s (by norm_num)
    omega
  refine ⟨?_, ?_, ?_, ?_⟩
  · unfold WIFEXITED; simp [h128]
  · unfold WIFSIGNALED; simp [h128]
  · unfold STOPPED; omega
  · unfold BACKGROUND; omega

/-- C10: `strvec_get` returns nothing exactly when the index is at least
the vector's length, and otherwise returns the stored string at that
index; no other failure is possible. -/
theorem C10_strvec_get_total (vec : List String) (i : Nat) :
    (strvec_get vec i = none ↔ vec.length ≤ i) ∧
    (∀ h : i < vec.length, strvec_get vec i = some (vec.get ⟨i, h⟩)) := by
  constructor
  · constructor
    · intro h
      by_contra hlt
      push_neg at hlt
      unfold strvec_get at h
      rw [if_neg (by omega), List.get?_eq_get hlt] at h
      exact Option.noConfusion h
    · intro h
      unfold strvec_get
      rw [if_pos (by omega)]
  · intro h
    unfold strvec_get
    rw [if_neg (by omega), List.get?_eq_get h]

/-- Witness for C10 at a concrete vector: an in-range index returns the
stored string, an out-of-range one returns nothing. -/
theorem C10_strvec_get_total_witness :
    strvec_get ["a", "b"] 1 = some "b" ∧ strvec_get ["a", "b"] 5 = none := by
  constructor
  · have h := (C10_strvec_get_total ["a", "b"] 1).2 (by decide)
    simpa using h
  · exact (C10_strvec_get_total ["a", "b"] 5).1.mpr (by decide)

/-- C8: an fg/bg index that resolves to no registry record fails with
InvalidIndex and leaves the registry unchanged, with no terminal, signal,
or wait action performed (empty event trace), for either resume mode. -/
theorem C8_resume_invalid_index (o : Oracle) (tokens : List String)
    (jobs : List Job) (i : Int) (is_fg : Bool)
    (hlen : 2 ≤ tokens.length)
    (hscan : scanInt (tokens.getD 1 "") = some i)
    (hget : job_list_get jobs i = none) :
    resume_job o tokens jobs is_fg = (some .invalidIndex, jobs, []) := by
  unfold resume_job
  rw [if_neg (by omega)]
  simp only [hscan, hget]

/-- Witness for C8: index 5 on an empty registry, in both modes. -/
theorem C8_resume_invalid_index_witness :
    resume_job oracleWaitFail ["fg", "5"] [] true = (some .invalidIndex, [], []) ∧
    resume_job oracleWaitFail ["bg", "5"] [] false = (some .invalidIndex, [], []) :=
  ⟨C8_resume_invalid_index oracleWaitFail ["fg", "5"] [] 5 true (by decide)
      (by decide) (by decide),
   C8_resume_invalid_index oracleWaitFail ["bg", "5"] [] 5 false (by decide)
      (by decide) (by decide)⟩

/-- C6: wait-for on a record whose status is not Background fails with
WrongJobType and leaves the registry unchanged; the result is the same for
every wait oracle, so no wait is performed. -/
theorem C6_wait_for_wrong_type (o : Oracle) (tokens : List String)
    (jobs : List Job) (i : Int) (job : Job)
    (hlen : 2 ≤ tokens.length)
    (hscan : scanInt (tokens.getD 1 "") = some i)
    (hget : job_list_get jobs i = some job)
    (hst : job.status ≠ BACKGROUND) :
    await_background_job o tokens jobs = (some .wrongJobType, jobs) := by
  unfold await_background_job
  rw [if_neg (by omega)]
  simp only [hscan, hget, if_pos hst]

/-- Witness for C6: wait-for on a Stopped record, under an oracle whose
waits all fail — the failing wait is never reached. -/
theorem C6_wait_for_wrong_type_witness :
    await_background_job oracleWaitFail ["wait-for", "0"] [⟨100, "x", STOPPED⟩] =
      (some .wrongJobType, [⟨100, "x", STOPPED⟩]) :=
  C6_wait_for_wrong_type oracleWaitFail ["wait-for", "0"] [⟨100, "x", STOPPED⟩] 0
    ⟨100, "x", STOPPED⟩ (by decide) (by decide) (by decide) (by decide)

/-- C7: wait-for on a Background record removes it from the registry when
the wait reports termination, and leaves the registry entirely untouched
(the record still marked Background) when the wait reports a stop. -/
theorem C7_wait_for_background (o : Oracle) (tokens : List String)
    (jobs : List Job) (i : Int) (job : Job) (s : Nat)
    (hlen : 2 ≤ tokens.length)
    (hscan : scanInt (tokens.getD 1 "") = some i)
    (hget : job_list_get jobs i = some job)
    (hst : job.status = BACKGROUND)
    (hw : o.waitO job.pid = some s) :
    ((WIFEXITED s || WIFSIGNALED s) = true →
      await_background_job o tokens jobs = (none, job_list_remove jobs i)) ∧
    (WIFSTOPPED s = true →
      await_background_job o tokens jobs = (none, jobs)) := by
  have hbase : await_background_job o tokens jobs =
      (if (WIFEXITED s || WIFSIGNALED s) = true then (none, job_list_remove jobs i)
       else (none, jobs)) := by
    unfold await_background_job
    rw [if_neg (by omega)]
    simp only [hscan, hget, hst, hw]
    rw [if_neg (by simp)]
  constructor
  · intro hterm
    rw [hbase, if_pos hterm]
  · intro hstop
    obtain ⟨he, hs, _, _⟩ := wifstopped_facts s hstop
    rw [hbase, if_neg (by simp [he, hs])]

/-- Witness for C7: a terminating wait removes the record, a stopping wait
leaves the registry untouched. -/
theorem C7_wait_for_background_witness :
    await_background_job oracleAllOk ["wait-for", "0"] [⟨500, "sleep", BACKGROUND⟩] =
      (none, []) ∧
    await_background_job oracleStop ["wait-for", "0"] [⟨500, "sleep", BACKGROUND⟩] =
      (none, [⟨500, "sleep", BACKGROUND⟩]) := by
  constructor
  · have h := (C7_wait_for_background oracleAllOk ["wait-for", "0"]
      [⟨500, "sleep", BACKGROUND⟩] 0 ⟨500, "sleep", BACKGROUND⟩ 0
      (by decide) (by decide) (by decide) (by decide) (by decide)).1 (by decide)
    simpa using h
  · exact (C7_wait_for_background oracleStop ["wait-for", "0"]
      [⟨500, "sleep", BACKGROUND⟩] 0 ⟨500, "sleep", BACKGROUND⟩ 5247
      (by decide) (by decide) (by decide) (by decide) (by decide)).2 (by decide)

/-- Effect of the first wait-all pass when every wait on a Background
record succeeds: the pass reports success and is a pointwise update of
the registry — each Background record whose wait reports a stop becomes
STOPPED, everything else is untouched, and nothing is removed. -/
theorem awaitAllPass1_total (waitO : Nat → Option Nat) (jobs : List Job)
    (h : ∀ j ∈ jobs, j.status = BACKGROUND → (waitO j.pid).isSome) :
    awaitAllPass1 waitO jobs =
      (true, jobs.map (fun j =>
        if j.status == BACKGROUND && WIFSTOPPED ((waitO j.pid).getD 0)
        then j.setStatus STOPPED else j)) := by
  induction jobs with
  | nil => rfl
  | cons j rest ih =>
    have hrest : ∀ j' ∈ rest, j'.status = BACKGROUND → (waitO j'.pid).isSome :=
      fun j' hj' => h j' (List.mem_cons_of_mem j hj')
    have ih' := ih hrest
    cases hb : (j.status == BACKGROUND) with
    | false =>
      simp only [awaitAllPass1, hb, Bool.false_eq_true, if_false, ih',
        List.map_cons, Bool.false_and]
    | true =>
      have hsome := h j (List.mem_cons_self j rest) (by simpa using hb)
      obtain ⟨s, hs⟩ := Option.isSome_iff_exists.mp hsome
      simp only [awaitAllPass1, hb, if_true, hs, ih', List.map_cons,
        Bool.true_and, Option.getD_some]

/-- C5: wait-all with successful waits is the spec's two-pass sweep: the
first pass turns exactly the Background records whose wait reports a stop
into STOPPED ones (terminated ones stay marked Background) and removes
nothing, and the second pass removes exactly the records still marked
Background; consequently every stopped background job survives with
status STOPPED and no record marked Background survives. -/
theorem C5_wait_all_two_pass (o : Oracle) (jobs : List Job)
    (h : ∀ j ∈ jobs, j.status = BACKGROUND → (o.waitO j.pid).isSome) :
    await_all_background_jobs o jobs =
      (none,
        (jobs.map (fun j =>
          if j.status == BACKGROUND && WIFSTOPPED ((o.waitO j.pid).getD 0)
          then j.setStatus STOPPED else j)).filter
          (fun j => j.status != BACKGROUND)) ∧
    (∀ j ∈ jobs, j.status = BACKGROUND →
      WIFSTOPPED ((o.waitO j.pid).getD 0) = true →
      j.setStatus STOPPED ∈ (await_all_background_jobs o jobs).2) ∧
    (∀ j ∈ (await_all_background_jobs o jobs).2, j.status ≠ BACKGROUND) := by
  have hmain : await_all_background_jobs o jobs =
      (none,
        (jobs.map (fun j =>
          if j.status == BACKGROUND && WIFSTOPPED ((o.waitO j.pid).getD 0)
          then j.setStatus STOPPED else j)).filter
          (fun j => j.status != BACKGROUND)) := by
    unfold await_all_background_jobs
    rw [awaitAllPass1_total o.waitO jobs h]
    rfl
  refine ⟨hmain, ?_, ?_⟩
  · intro j hj hb hstop
    rw [hmain]
    refine List.mem_filter.mpr ⟨?_, by simp [Job.setStatus, STOPPED, BACKGROUND]⟩
    exact List.mem_map.mpr ⟨j, hj, by simp [hb, hstop]⟩
  · intro j hj
    rw [hmain] at hj
    have := (List.mem_filter.mp hj).2
    simpa using this

/-- Witness for C5: registry with a Background job that exits, a Stopped
job, and a Background job that stops: wait-all removes the first, keeps
the second, relabels the third STOPPED. -/
theorem C5_wait_all_two_pass_witness :
    await_all_background_jobs oracleMixed
      [⟨100, "a", BACKGROUND⟩, ⟨200, "b", STOPPED⟩, ⟨300, "c", BACKGROUND⟩] =
      (none, [⟨200, "b", STOPPED⟩, ⟨300, "c", STOPPED⟩]) :=
  ((C5_wait_all_two_pass oracleMixed
    [⟨100, "a", BACKGROUND⟩, ⟨200, "b", STOPPED⟩, ⟨300, "c", BACKGROUND⟩]
    (by decide)).1).trans (by decide)

/-- C1: a foreground launch whose wait reports a stop adds a record whose
status field is the raw wait status — which is never the STOPPED
constant — while a wait reporting anything else adds no record at all
and leaves the registry unchanged. -/
theorem C1_raw_status_stored (o : Oracle) (tokens : List String)
    (jobs : List Job) (cpid s : Nat)
    (hbg : tokens.getLast? ≠ some "&")
    (hfork : o.forkResult = some cpid)
    (hset : o.setpgidOk = true)
    (htc1 : o.tcsetOk cpid = true)
    (hw : o.waitO cpid = some s)
    (htc2 : o.tcsetOk o.shellPid = true) :
    (WIFSTOPPED s = true →
      (launchChild o tokens jobs).2.1 = jobs ++ [⟨cpid, tokens.headD "", s⟩] ∧
      s ≠ STOPPED) ∧
    (WIFSTOPPED s = false → (launchChild o tokens jobs).2.1 = jobs) := by
  have hbgf : (!tokens.isEmpty && (tokens.getLast? == some "&")) = false := by
    simp [hbg]
  constructor
  · intro hstop
    obtain ⟨_, _, hne, _⟩ := wifstopped_facts s hstop
    refine ⟨?_, hne⟩
    unfold launchChild
    simp only [hbgf, hfork, hset, htc1, hw, htc2, hstop, Bool.not_true,
      Bool.false_eq_true, if_false, if_true]
    simp [job_list_add]
  · intro hstop
    unfold launchChild
    simp only [hbgf, hfork, hset, htc1, hw, htc2, hstop, Bool.not_true,
      Bool.false_eq_true, if_false, if_true]

/-- Witness for C1 at the failing input: fork gives pid 500 and the child
is stopped by SIGTSTP (raw wait status 5247): the added record stores
5247, which is not the STOPPED constant. -/
theorem C1_raw_status_stored_witness :
    (launchChild oracleStop ["sleep", "100"] []).2.1 =
      [] ++ [⟨500, ["sleep", "100"].headD "", 5247⟩] ∧ (5247 : Nat) ≠ STOPPED :=
  (C1_raw_status_stored oracleStop ["sleep", "100"] [] 500 5247 (by decide) rfl rfl
    rfl rfl rfl).1 (by decide)

/-- C2 counterexample: a fork failure on an external command makes main
return 1, so the shell process terminates instead of re-prompting. -/
theorem C2_fork_failure_exits :
    oracleForkFail.forkResult = none ∧
    (mainStep oracleForkFail ["sleep", "5"] []).1 = MainOutcome.exit 1 :=
  ⟨rfl, by decide⟩

/-- Dispatch fact: a first token that names no built-in sends the command
line to the fork-and-launch path. -/
theorem mainStep_launch (o : Oracle) (tokens : List String) (jobs : List Job)
    (first : String) (hhead : tokens.head? = some first)
    (h1 : first ≠ "pwd") (h2 : first ≠ "cd") (h3 : first ≠ "exit")
    (h4 : first ≠ "jobs") (h5 : first ≠ "fg") (h6 : first ≠ "bg")
    (h7 : first ≠ "wait-for") (h8 : first ≠ "wait-all") :
    mainStep o tokens jobs = launchChild o tokens jobs := by
  unfold mainStep
  rw [hhead]
  simp only [if_neg h1, if_neg h2, if_neg h3, if_neg h4, if_neg h5, if_neg h6,
    if_neg h7, if_neg h8]

/-- C2 amended: failures inside the job-control builtins (fg, bg,
wait-for, wait-all) abort only that operation and the shell re-prompts,
under every oracle; but during an external-command launch a fork failure
makes main return 1, and a setpgid failure, a tcsetpgrp failure (whether
transferring the terminal to the child or restoring it to the shell), or
a waitpid failure during a foreground launch makes main return -1 —
these errors terminate the shell process. -/
theorem C2_error_containment :
    (∀ (o : Oracle) (tokens : List String) (jobs : List Job) (first : String),
      tokens.head? = some first →
      (first = "fg" ∨ first = "bg" ∨ first = "wait-for" ∨ first = "wait-all") →
      (mainStep o tokens jobs).1 = MainOutcome.reprompt) ∧
    (∀ (o : Oracle) (tokens : List String) (jobs : List Job) (first : String),
      tokens.head? = some first →
      first ≠ "pwd" → first ≠ "cd" → first ≠ "exit" → first ≠ "jobs" →
      first ≠ "fg" → first ≠ "bg" → first ≠ "wait-for" → first ≠ "wait-all" →
      o.forkResult = none →
      (mainStep o tokens jobs).1 = MainOutcome.exit 1) ∧
    (∀ (o : Oracle) (tokens : List String) (jobs : List Job) (first : String)
      (cpid : Nat),
      tokens.head? = some first →
      first ≠ "pwd" → first ≠ "cd" → first ≠ "exit" → first ≠ "jobs" →
      first ≠ "fg" → first ≠ "bg" → first ≠ "wait-for" → first ≠ "wait-all" →
      tokens.getLast? ≠ some "&" →
      o.forkResult = some cpid → o.setpgidOk = false →
      (mainStep o tokens jobs).1 = MainOutcome.exit (-1)) ∧
    (∀ (o : Oracle) (tokens : List String) (jobs : List Job) (first : String)
      (cpid : Nat),
      tokens.head? = some first →
      first ≠ "pwd" → first ≠ "cd" → first ≠ "exit" → first ≠ "jobs" →
      first ≠ "fg" → first ≠ "bg" → first ≠ "wait-for" → first ≠ "wait-all" →
      tokens.getLast? ≠ some "&" →
      o.forkResult = some cpid → o.setpgidOk = true → o.tcsetOk cpid = false →
      (mainStep o tokens jobs).1 = MainOutcome.exit (-1)) ∧
    (∀ (o : Oracle) (tokens : List String) (jobs : List Job) (first : String)
      (cpid : Nat),
      tokens.head? = some first →
      first ≠ "pwd" → first ≠ "cd" → first ≠ "exit" → first ≠ "jobs" →
      first ≠ "fg" → first ≠ "bg" → first ≠ "wait-for" → first ≠ "wait-all" →
      tokens.getLast? ≠ some "&" →
      o.forkResult = some cpid → o.setpgidOk = true → o.tcsetOk cpid = true →
      o.waitO cpid = none →
      (mainStep o tokens jobs).1 = MainOutcome.exit (-1)) ∧
    (∀ (o : Oracle) (tokens : List String) (jobs : List Job) (first : String)
      (cpid s : Nat),
      tokens.head? = some first →
      first ≠ "pwd" → first ≠ "cd" → first ≠ "exit" → first ≠ "jobs" →
      first ≠ "fg" → first ≠ "bg" → first ≠ "wait-for" → first ≠ "wait-all" →
      tokens.getLast? ≠ some "&" →
      o.forkResult = some cpid → o.setpgidOk = true → o.tcsetOk cpid = true →
      o.waitO cpid = some s → o.tcsetOk o.shellPid = false →
      (mainStep o tokens jobs).1 = MainOutcome.exit (-1)) := by
  refine ⟨?_, ?_, ?_, ?_, ?_, ?_⟩
  · intro o tokens jobs first hhead hb
    unfold mainStep
    rw [hhead]
    rcases hb with rfl | rfl | rfl | rfl <;> simp
  · intro o tokens jobs first hhead h1 h2 h3 h4 h5 h6 h7 h8 hfork
    rw [mainStep_launch o tokens jobs first hhead h1 h2 h3 h4 h5 h6 h7 h8]
    unfold launchChild
    rw [hfork]
  · intro o tokens jobs first cpid hhead h1 h2 h3 h4 h5 h6 h7 h8 hbg hfork hset
    rw [mainStep_launch o tokens jobs first hhead h1 h2 h3 h4 h5 h6 h7 h8]
    have hbgf : (!tokens.isEmpty && (tokens.getLast? == some "&")) = false := by
      simp [hbg]
    unfold launchChild
    simp only [hbgf, hfork, hset, Bool.not_false, Bool.false_eq_true, if_false,
      if_true]
  · intro o tokens jobs first cpid hhead h1 h2 h3 h4 h5 h6 h7 h8 hbg hfork hset
      htc1
    rw [mainStep_launch o tokens jobs first hhead h1 h2 h3 h4 h5 h6 h7 h8]
    have hbgf : (!tokens.isEmpty && (tokens.getLast? == some "&")) = false := by
      simp [hbg]
    unfold launchChild
    simp only [hbgf, hfork, hset, htc1, Bool.not_true, Bool.not_false,
      Bool.false_eq_true, if_false, if_true]
  · intro o tokens jobs first cpid hhead h1 h2 h3 h4 h5 h6 h7 h8 hbg hfork hset
      htc1 hw
    rw [mainStep_launch o tokens jobs first hhead h1 h2 h3 h4 h5 h6 h7 h8]
    have hbgf : (!tokens.isEmpty && (tokens.getLast? == some "&")) = false := by
      simp [hbg]
    unfold launchChild
    simp only [hbgf, hfork, hset, htc1, hw, Bool.not_true, Bool.false_eq_true,
      if_false, if_true]
  · intro o tokens jobs first cpid s hhead h1 h2 h3 h4 h5 h6 h7 h8 hbg hfork hset
      htc1 hw htc2
    rw [mainStep_launch o tokens jobs first hhead h1 h2 h3 h4 h5 h6 h7 h8]
    have hbgf : (!tokens.isEmpty && (tokens.getLast? == some "&")) = false := by
      simp [hbg]
    unfold launchChild
    simp only [hbgf, hfork, hset, htc1, hw, htc2, Bool.not_true, Bool.not_false,
      Bool.false_eq_true, if_false, if_true]

/-- Witness for C2: a failing wait inside fg re-prompts; a fork failure,
a setpgid failure, a tcsetpgrp failure on either call, and a foreground
wait failure on an external command all exit the shell. -/
theorem C2_error_containment_witness :
    (mainStep oracleWaitFail ["fg", "0"] []).1 = MainOutcome.reprompt ∧
    (mainStep oracleForkFail ["ls"] []).1 = MainOutcome.exit 1 ∧
    (mainStep oracleSetpgidFail ["sleep", "5"] []).1 = MainOutcome.exit (-1) ∧
    (mainStep oracleTcsetFail ["sleep", "5"] []).1 = MainOutcome.exit (-1) ∧
    (mainStep oracleWaitFail ["sleep", "5"] []).1 = MainOutcome.exit (-1) ∧
    (mainStep oracleRestoreFail ["sleep", "5"] []).1 = MainOutcome.exit (-1) :=
  ⟨C2_error_containment.1 oracleWaitFail ["fg", "0"] [] "fg" rfl (Or.inl rfl),
   C2_error_containment.2.1 oracleForkFail ["ls"] [] "ls" rfl (by decide) (by decide)
     (by decide) (by decide) (by decide) (by decide) (by decide) (by decide) rfl,
   C2_error_containment.2.2.1 oracleSetpgidFail ["sleep", "5"] [] "sleep" 500 rfl
     (by decide) (by decide) (by decide) (by decide) (by decide) (by decide)
     (by decide) (by decide) (by decide) rfl rfl,
   C2_error_containment.2.2.2.1 oracleTcsetFail ["sleep", "5"] [] "sleep" 500 rfl
     (by decide) (by decide) (by decide) (by decide) (by decide) (by decide)
     (by decide) (by decide) (by decide) rfl rfl rfl,
   C2_error_containment.2.2.2.2.1 oracleWaitFail ["sleep", "5"] [] "sleep" 500 rfl
     (by decide) (by decide) (by decide) (by decide) (by decide) (by decide)
     (by decide) (by decide) (by decide) rfl rfl rfl rfl,
   C2_error_containment.2.2.2.2.2 oracleRestoreFail ["sleep", "5"] [] "sleep" 500 0
     rfl (by decide) (by decide) (by decide) (by decide) (by decide) (by decide)
     (by decide) (by decide) (by decide) rfl rfl rfl rfl rfl⟩

/-- C3 counterexample: a foreground resume whose wait fails returns
without restoring terminal ownership: the trace records the transfer to
the job, the continue signal and the wait, but no transfer back to the
shell's process group on that exit path. -/
theorem C3_no_restore_on_wait_failure :
    (resume_job oracleWaitFail ["fg", "0"] [⟨100, "sleep", STOPPED⟩] true).2.2 =
      [Event.tcset 100, Event.sigcont 100, Event.waited 100] ∧
    Event.tcset oracleWaitFail.shellPid ∉
      (resume_job oracleWaitFail ["fg", "0"] [⟨100, "sleep", STOPPED⟩] true).2.2 := by
  decide

/-- C3 amended: on every foreground resume the terminal transfer to the
job completes before the continue signal, which precedes the wait; after
a successful wait (and successful restore call) ownership returns to the
shell's group; but when the wait fails the operation aborts without
restoring ownership.  The same holds for foreground launches, which send
no continue signal. -/
theorem C3_transfer_order_and_restore :
    (∀ (o : Oracle) (tokens : List String) (jobs : List Job) (i : Int) (job : Job),
      2 ≤ tokens.length →
      scanInt (tokens.getD 1 "") = some i →
      job_list_get jobs i = some job →
      o.tcsetOk job.pid = true → o.killOk = true →
      ((∀ s, o.waitO job.pid = some s → o.tcsetOk o.shellPid = true →
        (resume_job o tokens jobs true).2.2 =
          [.tcset job.pid, .sigcont job.pid, .waited job.pid, .tcset o.shellPid]) ∧
       (o.waitO job.pid = none →
        (resume_job o tokens jobs true).2.2 =
          [.tcset job.pid, .sigcont job.pid, .waited job.pid]))) ∧
    (∀ (o : Oracle) (tokens : List String) (jobs : List Job) (cpid : Nat),
      tokens.getLast? ≠ some "&" →
      o.forkResult = some cpid → o.setpgidOk = true → o.tcsetOk cpid = true →
      ((∀ s, o.waitO cpid = some s → o.tcsetOk o.shellPid = true →
        (launchChild o tokens jobs).2.2 =
          [.tcset cpid, .waited cpid, .tcset o.shellPid]) ∧
       (o.waitO cpid = none →
        (launchChild o tokens jobs).2.2 = [.tcset cpid, .waited cpid]))) := by
  constructor
  · intro o tokens jobs i job hlen hscan hget htc1 hkill
    constructor
    · intro s hw htc2
      unfold resume_job
      rw [if_neg (by omega)]
      simp only [hscan, hget, htc1, hkill, hw, htc2, Bool.not_true, Bool.and_false,
        Bool.false_eq_true, if_false, if_true]
      simp
    · intro hw
      unfold resume_job
      rw [if_neg (by omega)]
      simp only [hscan, hget, htc1, hkill, hw, Bool.not_true, Bool.and_false,
        Bool.false_eq_true, if_false, if_true]
      simp
  · intro o tokens jobs cpid hbg hfork hset htc1
    have hbgf : (!tokens.isEmpty && (tokens.getLast? == some "&")) = false := by
      simp [hbg]
    constructor
    · intro s hw htc2
      unfold launchChild
      simp only [hbgf, hfork, hset, htc1, hw, htc2, Bool.not_true,
        Bool.false_eq_true, if_false, if_true]
      split <;> simp
    · intro hw
      unfold launchChild
      simp only [hbgf, hfork, hset, htc1, hw, Bool.not_true, Bool.false_eq_true,
        if_false, if_true]
      simp

/-- Witness for C3: concrete successful resume and launch traces, plus
the failing-wait traces without the restore event. -/
theorem C3_transfer_order_and_restore_witness :
    (resume_job oracleStop ["fg", "0"] [⟨100, "sleep", STOPPED⟩] true).2.2 =
      [.tcset 100, .sigcont 100, .waited 100, .tcset 42] ∧
    (resume_job oracleWaitFail ["bg-less", "0"] [⟨100, "sleep", STOPPED⟩] true).2.2 =
      [.tcset 100, .sigcont 100, .waited 100] ∧
    (launchChild oracleStop ["sleep", "100"] []).2.2 =
      [.tcset 500, .waited 500, .tcset 42] ∧
    (launchChild oracleWaitFail ["sleep", "100"] []).2.2 =
      [.tcset 500, .waited 500] :=
  ⟨(C3_transfer_order_and_restore.1 oracleStop ["fg", "0"] [⟨100, "sleep", STOPPED⟩]
      0 ⟨100, "sleep", STOPPED⟩ (by decide) (by decide) (by decide) rfl rfl).1 5247
      rfl rfl,
   (C3_transfer_order_and_restore.1 oracleWaitFail ["bg-less", "0"]
      [⟨100, "sleep", STOPPED⟩] 0 ⟨100, "sleep", STOPPED⟩ (by decide) (by decide)
      (by decide) rfl rfl).2 rfl,
   (C3_transfer_order_and_restore.2 oracleStop ["sleep", "100"] [] 500 (by decide)
      rfl rfl rfl).1 5247 rfl rfl,
   (C3_transfer_order_and_restore.2 oracleWaitFail ["sleep", "100"] [] 500
      (by decide) rfl rfl rfl).2 rfl⟩

/-- The find loop started at counter n reports the first occurrence
offset by n, or -1 when there is none. -/
theorem strvec_findAux_eq (s : String) (l : List String) :
    ∀ n : Nat, strvec_findAux s l n =
      (match firstIdx l s with
       | none => (-1 : Int)
       | some k => ((n + k : Nat) : Int)) := by
  induction l with
  | nil => intro n; rfl
  | cons t rest ih =>
    intro n
    unfold strvec_findAux firstIdx
    by_cases ht : t = s
    · rw [if_pos ht, if_pos ht]
      simp
    · rw [if_neg ht, if_neg ht, ih (n + 1)]
      cases hf : firstIdx rest s with
      | none => simp
      | some k =>
        simp only [Option.map_some]
        show ((n + 1 + k : Nat) : Int) = ((n + (k + 1) : Nat) : Int)
        exact congrArg (fun m : Nat => (m : Int)) (by omega)

/-- `strvec_find` finds the first occurrence, or -1. -/
theorem strvec_find_eq (tokens : List String) (s : String) :
    strvec_find tokens s =
      (match firstIdx tokens s with
       | none => (-1 : Int)
       | some k => (k : Int)) := by
  rw [strvec_find, strvec_findAux_eq]
  cases firstIdx tokens s <;> simp

/-- The code's index-exclusion test agrees pointwise with the spec's
description of which positions are dropped. -/
theorem excludedIdx_eq_spec (tokens : List String) (i : Nat) :
    excludedIdx (strvec_find tokens "<") (strvec_find tokens ">")
      (strvec_find tokens ">>") i = specExcluded tokens i := by
  unfold excludedIdx specExcluded
  rw [strvec_find_eq tokens "<", strvec_find_eq tokens ">",
    strvec_find_eq tokens ">>"]
  cases hf1 : firstIdx tokens "<" <;> cases hf2 : firstIdx tokens ">" <;>
    cases hf3 : firstIdx tokens ">>" <;>
    · rw [Bool.eq_iff_iff]
      simp only [Bool.and_eq_true, Bool.or_eq_true, bne_iff_ne, beq_iff_eq,
        Bool.false_eq_true, or_false, false_or]
      first
      | omega
      | simp

/-- The argument-vector loop of the code is the spec-side keep loop. -/
theorem argvLoop_eq_specArgvAux (p : Nat → Bool) (l : List String) :
    ∀ n, argvLoop p n l = specArgvAux p n l := by
  induction l with
  | nil => intro n; rfl
  | cons t rest ih =>
    intro n
    unfold argvLoop specArgvAux
    cases hp : p n <;> simp [ih (n + 1)]

/-- The keep loop only looks at the predicate pointwise. -/
theorem specArgvAux_congr (p q : Nat → Bool) (l : List String)
    (h : ∀ i, p i = q i) : ∀ n, specArgvAux p n l = specArgvAux q n l := by
  induction l with
  | nil => intro n; rfl
  | cons t rest ih =>
    intro n
    unfold specArgvAux
    rw [h n]
    cases hq : q n <;> simp [ih]

/-- The kept tokens of the argument vector form an order-preserving
sublist of the token list. -/
theorem argvLoop_filterMap_sublist (p : Nat → Bool) (l : List String) :
    ∀ n, List.Sublist ((argvLoop p n l).filterMap id) l := by
  induction l with
  | nil => intro n; simp [argvLoop]
  | cons t rest ih =>
    intro n
    unfold argvLoop
    cases hp : p n with
    | true =>
      simp only [if_true]
      exact (ih (n + 1)).cons t
    | false =>
      simp only [Bool.false_eq_true, if_false, List.filterMap_cons, id]
      exact (ih (n + 1)).cons₂ t

/-- Inversion of the final run_command steps: reaching exec passes the
built vector and redirection results through unchanged. -/
theorem execStep_exec_inv (fs : FileSys) (argv argv' : List (Option String))
    (inF inF' : Option String) (outF outF' : Option (OpenMode × String))
    (h : execStep fs argv inF outF = .exec argv' inF' outF') :
    argv' = argv ∧ inF' = inF ∧ outF' = outF := by
  unfold execStep at h
  split at h
  · simp at h
  · split at h
    · simp at h
    · split at h
      · split at h
        · simp only [RunOutcome.exec.injEq] at h
          exact ⟨h.1.symm, h.2.1.symm, h.2.2.symm⟩
        · simp at h
      · simp at h

/-- Inversion of the output-redirection step: when it succeeds, a found
`>` always yields truncate mode on the token after the `>`, a found `>>`
yields append mode only when no `>` was found, and no operator yields no
output redirection. -/
theorem outRedirStep_ok_inv (fs : FileSys) (tokens : List String)
    (outI appI : Int) (outF : Option (OpenMode × String))
    (h : outRedirStep fs tokens outI appI = .ok outF) :
    (outI ≠ -1 → outF = some (.trunc, tokens.getD (outI + 1).toNat "")) ∧
    (outI = -1 → appI ≠ -1 → outF = some (.append, tokens.getD (appI + 1).toNat "")) ∧
    (outI = -1 → appI = -1 → outF = none) := by
  unfold outRedirStep at h
  by_cases ho : outI = -1
  · by_cases ha : appI = -1
    · rw [if_neg (by simp [ho, ha])] at h
      simp only [Except.ok.injEq] at h
      exact ⟨fun hc => absurd ho hc, fun _ hc => absurd ha hc, fun _ _ => h.symm⟩
    · rw [if_pos (by simp [ho, ha]), if_neg (by simp [ho])] at h
      by_cases hlen : appI + 1 ≥ (tokens.length : Int)
      · rw [if_pos hlen] at h
        simp at h
      · rw [if_neg hlen] at h
        split at h
        · simp at h
        · split at h
          · simp only [Except.ok.injEq] at h
            exact ⟨fun hc => absurd ho hc, fun _ _ => h.symm, fun _ hc => absurd hc ha⟩
          · simp at h
  · rw [if_pos (by simp [bne_iff_ne.mpr ho]), if_pos (by simp [bne_iff_ne.mpr ho])] at h
    by_cases hlen : outI + 1 ≥ (tokens.length : Int)
    · rw [if_pos hlen] at h
      simp at h
    · rw [if_neg hlen] at h
      split at h
      · simp at h
      · split at h
        · simp only [Except.ok.injEq] at h
          exact ⟨fun _ => h.symm, fun hc => absurd hc ho, fun hc => absurd hc ho⟩
        · simp at h

/-- Inversion of run_command: when it reaches exec, the argument vector is
the filtered one built from the found operator positions, and the output
redirection step succeeded with the reported result. -/
theorem run_command_exec_inv (fs : FileSys) (tokens : List String)
    (argv : List (Option String)) (inF : Option String)
    (outF : Option (OpenMode × String))
    (hex : run_command fs tokens = .exec argv inF outF) :
    argv = argvLoop (excludedIdx (strvec_find tokens "<") (strvec_find tokens ">")
      (strvec_find tokens ">>")) 0 tokens ∧
    outRedirStep fs tokens (strvec_find tokens ">") (strvec_find tokens ">>") =
      .ok outF := by
  unfold run_command at hex
  split at hex
  · simp at hex
  · split at hex
    · simp at hex
    · next inputFile hin =>
      split at hex
      · simp at hex
      · next outputFile hout =>
        obtain ⟨h1, h2, h3⟩ := execStep_exec_inv fs
          (argvLoop (excludedIdx (strvec_find tokens "<") (strvec_find tokens ">")
            (strvec_find tokens ">>")) 0 tokens) argv inputFile inF outputFile
          outF hex
        exact ⟨h1, by rw [hout, h3]⟩

/-- C4 counterexample: with both operators present and `>>` appearing
first in the token list, the mode used is the truncate mode of the later
`>`, not the append mode of the first-appearing operator. -/
theorem C4_first_operator_does_not_win :
    firstOutRedir ["cmd", ">>", "f", ">", "g"] = some OpenMode.append ∧
    run_command fsAllOk ["cmd", ">>", "f", ">", "g"] =
      .exec [some "cmd", none] none (some (OpenMode.trunc, "g")) := by
  decide

/-- C4 amended: whenever `>` is present among the tokens its truncate
mode wins regardless of position; the append mode of `>>` applies only
when no `>` is present. -/
theorem C4_truncate_priority (fs : FileSys) (tokens : List String)
    (argv : List (Option String)) (inF : Option String)
    (outF : Option (OpenMode × String))
    (hex : run_command fs tokens = .exec argv inF outF) :
    (strvec_find tokens ">" ≠ -1 →
      outF = some (.trunc, tokens.getD (strvec_find tokens ">" + 1).toNat "")) ∧
    (strvec_find tokens ">" = -1 → strvec_find tokens ">>" ≠ -1 →
      outF = some (.append, tokens.getD (strvec_find tokens ">>" + 1).toNat "")) := by
  obtain ⟨-, hout⟩ := run_command_exec_inv fs tokens argv inF outF hex
  obtain ⟨ha, hb, -⟩ := outRedirStep_ok_inv fs tokens _ _ outF hout
  exact ⟨ha, hb⟩

/-- Witness for C4: the dual-operator command, where the `>` wins. -/
theorem C4_truncate_priority_witness :
    (some (OpenMode.trunc, "g") : Option (OpenMode × String)) =
      some (.trunc, ["cmd", ">>", "f", ">", "g"].getD
        (strvec_find ["cmd", ">>", "f", ">", "g"] ">" + 1).toNat "") :=
  (C4_truncate_priority fsAllOk ["cmd", ">>", "f", ">", "g"] [some "cmd", none]
    none (some (.trunc, "g")) (by decide)).1 (by decide)

/-- Position 0 is never excluded when the command name is not a
redirection operator. -/
theorem specExcluded_zero (c : String) (rest : List String)
    (h1 : c ≠ "<") (h2 : c ≠ ">") (h3 : c ≠ ">>") :
    specExcluded (c :: rest) 0 = false := by
  unfold specExcluded firstIdx
  rw [if_neg h1, if_neg h2, if_neg h3]
  cases hf1 : firstIdx rest "<" <;> cases hf2 : firstIdx rest ">" <;>
    cases hf3 : firstIdx rest ">>" <;> simp

/-- C9: the argument vector passed to the program is exactly the spec's
filtered vector (each found redirection operator and its following
filename token excluded, NULL sentinel last); its kept tokens are an
order-preserving sublist of the token list; and the command name comes
first whenever it is not itself a redirection operator. -/
theorem C9_filtered_argv (fs : FileSys) (tokens : List String)
    (argv : List (Option String)) (inF : Option String)
    (outF : Option (OpenMode × String))
    (hex : run_command fs tokens = .exec argv inF outF) :
    argv = specArgv tokens ∧
    List.Sublist (argv.filterMap id) tokens ∧
    (∀ c, tokens.head? = some c → c ≠ "<" → c ≠ ">" → c ≠ ">>" →
      argv.head? = some (some c)) := by
  obtain ⟨h1, -⟩ := run_command_exec_inv fs tokens argv inF outF hex
  have hspec : argvLoop (excludedIdx (strvec_find tokens "<")
      (strvec_find tokens ">") (strvec_find tokens ">>")) 0 tokens =
      specArgv tokens := by
    rw [argvLoop_eq_specArgvAux]
    exact specArgvAux_congr _ _ tokens (excludedIdx_eq_spec tokens) 0
  refine ⟨h1.trans hspec, ?_, ?_⟩
  · rw [h1]
    exact argvLoop_filterMap_sublist _ tokens 0
  · intro c hc hc1 hc2 hc3
    rw [h1.trans hspec]
    cases tokens with
    | nil => simp at hc
    | cons t rest =>
      have ht : t = c := by simpa using hc
      rw [ht]
      unfold specArgv specArgvAux
      rw [specExcluded_zero c rest hc1 hc2 hc3]
      simp

/-- Witness for C9 at a concrete redirected command line. -/
theorem C9_filtered_argv_witness :
    ([some "ls", some "-l", none] : List (Option String)) =
      specArgv ["ls", "-l", ">", "out"] ∧
    List.Sublist (([some "ls", some "-l", none] : List (Option String)).filterMap id)
      ["ls", "-l", ">", "out"] ∧
    ([some "ls", some "-l", none] : List (Option String)).head? =
      some (some "ls") := by
  obtain ⟨h1, h2, h3⟩ := C9_filtered_argv fsAllOk ["ls", "-l", ">", "out"]
    [some "ls", some "-l", none] none (some (.trunc, "out")) (by decide)
  exact ⟨h1, h2, h3 "ls" rfl (by decide) (by decide) (by decide)⟩

end Swish
